import Mathlib

/-!
Shallow embedding of the avatar crop/zoom/pan/export pipeline of
`src/components/settings/AvatarCropDialog.tsx` (SafeChat), together with
theorems about the transform engine (`baseScale`, `clampOffset`), the
pointer-drag controller, the open/close reset effect and the raster export
stage's source-rectangle computation.

Numbers are modelled as rationals (the source works with JS numbers used
as exact reals in the clamp/export arithmetic).  Image dimensions of an
undecoded image are `0`, matching the `!imageSize.width` falsiness checks.
-/

namespace SafeChat

/-- Side length of the square crop frame (`const CROP_SIZE = 240`). -/
def CROP_SIZE : ℚ := 240

/-- Side length of the square output raster (`const OUTPUT_SIZE = 256`). -/
def OUTPUT_SIZE : ℚ := 256

/-- A 2D pan offset `{ x, y }` in crop-frame pixel units. -/
structure Offset where
  x : ℚ
  y : ℚ
deriving DecidableEq, Repr

/-- Cached native image dimensions (`imageSize` state); `0` on an axis means
the image has not been decoded yet. -/
structure ImageSize where
  width : ℚ
  height : ℚ
deriving DecidableEq, Repr

/-- Embeds the `baseScale` memo:
`if (!imageSize.width || !imageSize.height) return 1;
 return Math.max(CROP_SIZE / imageSize.width, CROP_SIZE / imageSize.height)`. -/
def baseScale (imageSize : ImageSize) : ℚ :=
  if imageSize.width = 0 ∨ imageSize.height = 0 then 1
  else max (CROP_SIZE / imageSize.width) (CROP_SIZE / imageSize.height)

/-- Embeds `clampOffset(nextOffset, nextScale)` from `AvatarCropDialog.tsx`:
returns the input unchanged while dimensions are unknown, otherwise clamps
each offset component into `[-max, max]` with
`max = Math.max(0, (display - CROP_SIZE) / 2)` per axis. -/
def clampOffset (imageSize : ImageSize) (nextOffset : Offset) (nextScale : ℚ) :
    Offset :=
  if imageSize.width = 0 ∨ imageSize.height = 0 then nextOffset
  else
    let displayScale := baseScale imageSize * nextScale
    let displayWidth := imageSize.width * displayScale
    let displayHeight := imageSize.height * displayScale
    let maxX := max 0 ((displayWidth - CROP_SIZE) / 2)
    let maxY := max 0 ((displayHeight - CROP_SIZE) / 2)
    { x := min maxX (max (-maxX) nextOffset.x),
      y := min maxY (max (-maxY) nextOffset.y) }

/-- The source sub-rectangle handed to `ctx.drawImage` by `handleApply`
(source coordinates in native image pixels; the sampled region is square). -/
structure SourceRect where
  sourceX : ℚ
  sourceY : ℚ
  sourceSize : ℚ
deriving DecidableEq, Repr

/-- Embeds the geometric part of `handleApply`: the computation of
`sourceX`, `sourceY`, `sourceSize` from the current `imageSize`, `scale`,
`offset` and `baseScale` (lines computing `displayScale`, `displayWidth`,
`displayHeight`, `imageLeft`, `imageTop`, `sourceX`, `sourceY`,
`sourceSize`). -/
def exportSourceRect (imageSize : ImageSize) (scale : ℚ) (offset : Offset) :
    SourceRect :=
  let displayScale := baseScale imageSize * scale
  let displayWidth := imageSize.width * displayScale
  let displayHeight := imageSize.height * displayScale
  let imageLeft := CROP_SIZE / 2 - displayWidth / 2 + offset.x
  let imageTop := CROP_SIZE / 2 - displayHeight / 2 + offset.y
  { sourceX := (0 - imageLeft) / displayScale,
    sourceY := (0 - imageTop) / displayScale,
    sourceSize := CROP_SIZE / displayScale }

/-- Analytic derivation of the export source rectangle as the specification
words it: `imageOrigin = frameCenter - displaySize/2 + offset`,
`sourceOrigin = (frameOrigin - imageOrigin) / displayScale` with the frame
origin at `0` in frame-local coordinates, and
`sourceSize = frameSize / displayScale`. -/
def specSourceRect (imageSize : ImageSize) (scale : ℚ) (offset : Offset) :
    SourceRect :=
  let displayScale := baseScale imageSize * scale
  let frameCenter := CROP_SIZE / 2
  let frameOrigin : ℚ := 0
  let imageOriginX := frameCenter - imageSize.width * displayScale / 2 + offset.x
  let imageOriginY := frameCenter - imageSize.height * displayScale / 2 + offset.y
  { sourceX := (frameOrigin - imageOriginX) / displayScale,
    sourceY := (frameOrigin - imageOriginY) / displayScale,
    sourceSize := CROP_SIZE / displayScale }

/-- Control-flow skeleton of `handleApply` with its three fallible stages as
parameters: whether `imageRef.current` is non-null, whether
`canvas.getContext('2d')` returned a context, and the `Option` result the
`canvas.toBlob` promise resolved with.  The return value is the list of
blobs passed to the `onApply` sink, in order. -/
def handleApplySinkCalls (α : Type) (imageRefLoaded : Bool)
    (ctxAvailable : Bool) (encoded : Option α) : List α :=
  if ¬imageRefLoaded then []
  else if ¬ctxAvailable then []
  else
    match encoded with
    | some blob => [blob]
    | none => []

/-- The drag snapshot stored in `dragState.current` on pointer-down: press
coordinates and the offset in effect at press time. -/
structure DragSnapshot where
  x : ℚ
  y : ℚ
  offsetX : ℚ
  offsetY : ℚ
deriving DecidableEq, Repr

/-- The component state the pointer handlers and effects read and write:
the `dragState` ref, the `isDragging` state, the cached `imageSize`, and
the parent-held `scale` and `offset` (mirrored through the change
callbacks). -/
structure DialogState where
  dragState : Option DragSnapshot
  isDragging : Bool
  imageSize : ImageSize
  scale : ℚ
  offset : Offset
deriving DecidableEq, Repr

/-- The fields of a pointer event the handlers consult. -/
structure PointerEvent where
  clientX : ℚ
  clientY : ℚ
  pointerType : String
  button : ℕ
deriving DecidableEq, Repr

/-- Embeds `handlePointerDown`: a non-primary mouse button press is ignored;
otherwise the drag snapshot records the press coordinates and the current
offset, and `isDragging` becomes true. -/
def handlePointerDown (s : DialogState) (e : PointerEvent) : DialogState :=
  if e.pointerType = "mouse" ∧ e.button ≠ 0 then s
  else
    { s with
      dragState := some
        { x := e.clientX, y := e.clientY,
          offsetX := s.offset.x, offsetY := s.offset.y },
      isDragging := true }

/-- Embeds `handlePointerMove`: without a drag snapshot it is a no-op;
otherwise the candidate offset (snapshot offset plus pointer delta) is
clamped and written to the shared offset state via `onOffsetChange`. -/
def handlePointerMove (s : DialogState) (e : PointerEvent) : DialogState :=
  match s.dragState with
  | none => s
  | some d =>
      { s with
        offset := clampOffset s.imageSize
          { x := d.offsetX + (e.clientX - d.x),
            y := d.offsetY + (e.clientY - d.y) } s.scale }

/-- Embeds `handlePointerUp` (also wired to pointer-leave): without a drag
snapshot it is a no-op; otherwise it discards the snapshot and clears
`isDragging`, leaving the offset untouched. -/
def handlePointerUp (s : DialogState) : DialogState :=
  match s.dragState with
  | none => s
  | some _ => { s with dragState := none, isDragging := false }

/-- Embeds the `useEffect` on `[open]`:
`if (!open) setImageSize({ width: 0, height: 0 })` — run when the `open`
prop changes, it resets only the cached image dimensions. -/
def openChangeEffect (s : DialogState) (isOpen : Bool) : DialogState :=
  if ¬isOpen then { s with imageSize := { width := 0, height := 0 } } else s

/-- Embeds the re-clamp `useEffect`: it recomputes the clamped offset and
calls `onOffsetChange` only when the clamped value differs from the stored
one. -/
def reclampEffect (s : DialogState) : DialogState :=
  let clamped := clampOffset s.imageSize s.offset s.scale
  if clamped.x = s.offset.x ∧ clamped.y = s.offset.y then s
  else { s with offset := clamped }

/-- The invariant the spec states for a valid viewport: in frame-local
coordinates (frame spanning `[0, CROP_SIZE]` on each axis, image top-left
at `CROP_SIZE/2 - displaySize/2 + offset` as in the render transform and in
`handleApply`), the displayed image covers the frame on both axes. -/
def covers (imageSize : ImageSize) (scale : ℚ) (offset : Offset) : Prop :=
  let displayScale := baseScale imageSize * scale
  let displayWidth := imageSize.width * displayScale
  let displayHeight := imageSize.height * displayScale
  CROP_SIZE / 2 - displayWidth / 2 + offset.x ≤ 0 ∧
  CROP_SIZE ≤ CROP_SIZE / 2 - displayWidth / 2 + offset.x + displayWidth ∧
  CROP_SIZE / 2 - displayHeight / 2 + offset.y ≤ 0 ∧
  CROP_SIZE ≤ CROP_SIZE / 2 - displayHeight / 2 + offset.y + displayHeight

/-! ### Helper lemmas shared by the claim theorems -/

/-- One-dimensional clamp into `[-m, m]`, the shape used on each axis of
`clampOffset`. -/
def clamp1 (m x : ℚ) : ℚ := min m (max (-m) x)

lemma CROP_SIZE_pos : (0 : ℚ) < CROP_SIZE := by norm_num [CROP_SIZE]

lemma clampOffset_of_unknown (sz : ImageSize) (o : Offset) (s : ℚ)
    (h : sz.width = 0 ∨ sz.height = 0) : clampOffset sz o s = o := by
  unfold clampOffset
  rw [if_pos h]

lemma clampOffset_of_known (sz : ImageSize) (o : Offset) (s : ℚ)
    (hw : sz.width ≠ 0) (hh : sz.height ≠ 0) :
    clampOffset sz o s =
      { x := clamp1 (max 0 ((sz.width * (baseScale sz * s) - CROP_SIZE) / 2)) o.x,
        y := clamp1 (max 0 ((sz.height * (baseScale sz * s) - CROP_SIZE) / 2)) o.y } := by
  unfold clampOffset clamp1
  rw [if_neg (by rintro (h | h); exacts [hw h, hh h])]

lemma baseScale_of_known (sz : ImageSize) (hw : sz.width ≠ 0)
    (hh : sz.height ≠ 0) :
    baseScale sz = max (CROP_SIZE / sz.width) (CROP_SIZE / sz.height) := by
  unfold baseScale
  rw [if_neg (by rintro (h | h); exacts [hw h, hh h])]

lemma clamp1_mem (m x : ℚ) (hm : 0 ≤ m) :
    -m ≤ clamp1 m x ∧ clamp1 m x ≤ m :=
  ⟨le_min (by linarith) (le_max_left _ _), min_le_left _ _⟩

lemma clamp1_eq_self (m x : ℚ) (h1 : -m ≤ x) (h2 : x ≤ m) : clamp1 m x = x := by
  unfold clamp1
  rw [max_eq_right h1, min_eq_right h2]

lemma clamp1_idem (m x : ℚ) (hm : 0 ≤ m) : clamp1 m (clamp1 m x) = clamp1 m x :=
  clamp1_eq_self m (clamp1 m x) (clamp1_mem m x hm).1 (clamp1_mem m x hm).2

lemma display_ge_frame (w h s : ℚ) (hw : 0 < w) (hh : 0 < h) (hs : 1 ≤ s) :
    CROP_SIZE ≤ w * (baseScale ⟨w, h⟩ * s) ∧
      CROP_SIZE ≤ h * (baseScale ⟨w, h⟩ * s) := by
  have hbs := baseScale_of_known ⟨w, h⟩ hw.ne' hh.ne'
  have h1 : CROP_SIZE / w ≤ baseScale ⟨w, h⟩ := by
    rw [hbs]; exact le_max_left _ _
  have h2 : CROP_SIZE / h ≤ baseScale ⟨w, h⟩ := by
    rw [hbs]; exact le_max_right _ _
  have hcw : w * (CROP_SIZE / w) = CROP_SIZE := by field_simp
  have hch : h * (CROP_SIZE / h) = CROP_SIZE := by field_simp
  have hwbs : CROP_SIZE ≤ w * baseScale ⟨w, h⟩ := by
    have := mul_le_mul_of_nonneg_left h1 hw.le
    rwa [hcw] at this
  have hhbs : CROP_SIZE ≤ h * baseScale ⟨w, h⟩ := by
    have := mul_le_mul_of_nonneg_left h2 hh.le
    rwa [hch] at this
  constructor
  · calc CROP_SIZE ≤ w * baseScale ⟨w, h⟩ * 1 := by rw [mul_one]; exact hwbs
      _ ≤ w * baseScale ⟨w, h⟩ * s :=
        mul_le_mul_of_nonneg_left hs (le_trans CROP_SIZE_pos.le hwbs)
      _ = w * (baseScale ⟨w, h⟩ * s) := by ring
  · calc CROP_SIZE ≤ h * baseScale ⟨w, h⟩ * 1 := by rw [mul_one]; exact hhbs
      _ ≤ h * baseScale ⟨w, h⟩ * s :=
        mul_le_mul_of_nonneg_left hs (le_trans CROP_SIZE_pos.le hhbs)
      _ = h * (baseScale ⟨w, h⟩ * s) := by ring

/-! ### Claim theorems -/

/-- C10: for every offset and scale, when either cached native dimension is
unknown (zero, i.e. before image decode completes), `clampOffset` returns
its input offset unchanged. -/
theorem clampOffset_unknown_id (sz : ImageSize) (o : Offset) (s : ℚ)
    (h : sz.width = 0 ∨ sz.height = 0) : clampOffset sz o s = o :=
  clampOffset_of_unknown sz o s h

theorem clampOffset_unknown_id_witness :
    ((ImageSize.mk 0 100).width = 0 ∨ (ImageSize.mk 0 100).height = 0) ∧
      clampOffset ⟨0, 100⟩ ⟨7, -3⟩ 2 = ⟨7, -3⟩ :=
  ⟨Or.inl rfl, clampOffset_unknown_id ⟨0, 100⟩ ⟨7, -3⟩ 2 (Or.inl rfl)⟩

/-- C4: `clampOffset` is idempotent for every offset, scale and native image
size, including unknown (zero) dimensions. -/
theorem clampOffset_idempotent (sz : ImageSize) (o : Offset) (s : ℚ) :
    clampOffset sz (clampOffset sz o s) s = clampOffset sz o s := by
  by_cases h : sz.width = 0 ∨ sz.height = 0
  · rw [clampOffset_of_unknown sz o s h,
      clampOffset_of_unknown sz o s h]
  · obtain ⟨hw, hh⟩ := not_or.mp h
    rw [clampOffset_of_known sz o s hw hh,
      clampOffset_of_known sz _ s hw hh]
    have hmX : (0 : ℚ) ≤ max 0 ((sz.width * (baseScale sz * s) - CROP_SIZE) / 2) :=
      le_max_left _ _
    have hmY : (0 : ℚ) ≤ max 0 ((sz.height * (baseScale sz * s) - CROP_SIZE) / 2) :=
      le_max_left _ _
    simp only
    rw [clamp1_idem _ _ hmX, clamp1_idem _ _ hmY]

/-- C3: for positive native dimensions, `baseScale` equals
`max (CROP_SIZE / w) (CROP_SIZE / h)` and satisfies the cover inequality
`CROP_SIZE ≤ baseScale * min w h`; when either dimension is unknown (zero)
it is `1`. -/
theorem baseScale_cover_spec (w h : ℚ) (sz : ImageSize)
    (hw : 0 < w) (hh : 0 < h) :
    (baseScale ⟨w, h⟩ = max (CROP_SIZE / w) (CROP_SIZE / h) ∧
      CROP_SIZE ≤ baseScale ⟨w, h⟩ * min w h) ∧
    (sz.width = 0 ∨ sz.height = 0 → baseScale sz = 1) := by
  refine ⟨⟨baseScale_of_known ⟨w, h⟩ hw.ne' hh.ne', ?_⟩, fun hz => ?_⟩
  · have hd := display_ge_frame w h 1 hw hh le_rfl
    rcases le_total w h with hwh | hwh
    · rw [min_eq_left hwh, mul_comm]
      have := hd.1
      rwa [mul_one] at this
    · rw [min_eq_right hwh, mul_comm]
      have := hd.2
      rwa [mul_one] at this
  · unfold baseScale
    rw [if_pos hz]

theorem baseScale_cover_spec_witness :
    (0 : ℚ) < 240 ∧ (0 : ℚ) < 480 ∧
      ((baseScale ⟨240, 480⟩ = max (CROP_SIZE / 240) (CROP_SIZE / 480) ∧
        CROP_SIZE ≤ baseScale ⟨240, 480⟩ * min (240 : ℚ) 480) ∧
       ((ImageSize.mk 0 0).width = 0 ∨ (ImageSize.mk 0 0).height = 0 →
        baseScale ⟨0, 0⟩ = 1)) :=
  ⟨by norm_num, by norm_num,
    baseScale_cover_spec 240 480 ⟨0, 0⟩ (by norm_num) (by norm_num)⟩

/-- C1: for every known positive native image size, every scale in `[1, 3]`
and every candidate offset, the offset returned by `clampOffset` leaves the
displayed image fully covering the crop frame on both axes. -/
theorem clampOffset_covers (w h s : ℚ) (o : Offset)
    (hw : 0 < w) (hh : 0 < h) (hs1 : 1 ≤ s) (hs3 : s ≤ 3) :
    covers ⟨w, h⟩ s (clampOffset ⟨w, h⟩ o s) := by
  obtain ⟨hdw, hdh⟩ := display_ge_frame w h s hw hh hs1
  rw [clampOffset_of_known ⟨w, h⟩ o s hw.ne' hh.ne']
  have hmX : max 0 ((w * (baseScale ⟨w, h⟩ * s) - CROP_SIZE) / 2) =
      (w * (baseScale ⟨w, h⟩ * s) - CROP_SIZE) / 2 :=
    max_eq_right (by linarith)
  have hmY : max 0 ((h * (baseScale ⟨w, h⟩ * s) - CROP_SIZE) / 2) =
      (h * (baseScale ⟨w, h⟩ * s) - CROP_SIZE) / 2 :=
    max_eq_right (by linarith)
  have hx := clamp1_mem (max 0 ((w * (baseScale ⟨w, h⟩ * s) - CROP_SIZE) / 2))
    o.x (le_max_left _ _)
  have hy := clamp1_mem (max 0 ((h * (baseScale ⟨w, h⟩ * s) - CROP_SIZE) / 2))
    o.y (le_max_left _ _)
  rw [hmX] at hx
  rw [hmY] at hy
  unfold covers
  simp only
  rw [hmX, hmY]
  refine ⟨?_, ?_, ?_, ?_⟩ <;> [linarith [hx.2]; linarith [hx.1];
    linarith [hy.2]; linarith [hy.1]]

theorem clampOffset_covers_witness :
    (0 : ℚ) < 240 ∧ (0 : ℚ) < 480 ∧ (1 : ℚ) ≤ 1 ∧ (1 : ℚ) ≤ 3 ∧
      covers ⟨240, 480⟩ 1 (clampOffset ⟨240, 480⟩ ⟨1000, 1000⟩ 1) :=
  ⟨by norm_num, by norm_num, le_rfl, by norm_num,
    clampOffset_covers 240 480 1 ⟨1000, 1000⟩ (by norm_num) (by norm_num)
      le_rfl (by norm_num)⟩

/-- C2: for known positive dimensions, `clampOffset` clamps each component
into `[-max, max]` with `max = max 0 ((display - CROP_SIZE) / 2)` per axis,
and when the display size exactly equals the frame size on an axis, the
returned offset on that axis is exactly `0`. -/
theorem clampOffset_formula (w h s : ℚ) (o : Offset) (hw : 0 < w) (hh : 0 < h) :
    ((clampOffset ⟨w, h⟩ o s).x =
        clamp1 (max 0 ((w * (baseScale ⟨w, h⟩ * s) - CROP_SIZE) / 2)) o.x ∧
      (clampOffset ⟨w, h⟩ o s).y =
        clamp1 (max 0 ((h * (baseScale ⟨w, h⟩ * s) - CROP_SIZE) / 2)) o.y) ∧
    (w * (baseScale ⟨w, h⟩ * s) = CROP_SIZE → (clampOffset ⟨w, h⟩ o s).x = 0) ∧
    (h * (baseScale ⟨w, h⟩ * s) = CROP_SIZE → (clampOffset ⟨w, h⟩ o s).y = 0) := by
  have hk := clampOffset_of_known ⟨w, h⟩ o s hw.ne' hh.ne'
  have hx : (clampOffset ⟨w, h⟩ o s).x =
      clamp1 (max 0 ((w * (baseScale ⟨w, h⟩ * s) - CROP_SIZE) / 2)) o.x :=
    congrArg Offset.x hk
  have hy : (clampOffset ⟨w, h⟩ o s).y =
      clamp1 (max 0 ((h * (baseScale ⟨w, h⟩ * s) - CROP_SIZE) / 2)) o.y :=
    congrArg Offset.y hk
  refine ⟨⟨hx, hy⟩, fun he => ?_, fun he => ?_⟩
  · rw [hx, he]
    unfold clamp1
    rw [sub_self, zero_div, max_self, neg_zero]
    exact min_eq_left (le_max_left _ _)
  · rw [hy, he]
    unfold clamp1
    rw [sub_self, zero_div, max_self, neg_zero]
    exact min_eq_left (le_max_left _ _)

theorem clampOffset_formula_witness :
    (0 : ℚ) < 240 ∧ (0 : ℚ) < 240 ∧
      240 * (baseScale ⟨240, 240⟩ * 1) = CROP_SIZE ∧
      (clampOffset ⟨240, 240⟩ ⟨5, 7⟩ 1).x = 0 :=
  ⟨by norm_num, by norm_num, by norm_num [baseScale, CROP_SIZE],
    (clampOffset_formula 240 240 1 ⟨5, 7⟩ (by norm_num) (by norm_num)).2.1
      (by norm_num [baseScale, CROP_SIZE])⟩

/-- C5: the source sub-rectangle computed by the export stage equals the
analytic derivation of the specification; determinism on identical inputs
is immediate since `exportSourceRect` is a pure function of its inputs. -/
theorem exportSourceRect_eq_spec (sz : ImageSize) (s : ℚ) (o : Offset) :
    exportSourceRect sz s o = specSourceRect sz s o := rfl

/-- C6: with known positive dimensions, scale in `[1, 3]` and an offset
that is a fixed point of `clampOffset`, the export source sub-rectangle
lies entirely within the native image bounds. -/
theorem exportSourceRect_in_bounds (w h s : ℚ) (o : Offset)
    (hw : 0 < w) (hh : 0 < h) (hs1 : 1 ≤ s) (hs3 : s ≤ 3)
    (hfix : clampOffset ⟨w, h⟩ o s = o) :
    0 ≤ (exportSourceRect ⟨w, h⟩ s o).sourceX ∧
    0 ≤ (exportSourceRect ⟨w, h⟩ s o).sourceY ∧
    (exportSourceRect ⟨w, h⟩ s o).sourceX +
      (exportSourceRect ⟨w, h⟩ s o).sourceSize ≤ w ∧
    (exportSourceRect ⟨w, h⟩ s o).sourceY +
      (exportSourceRect ⟨w, h⟩ s o).sourceSize ≤ h := by
  have hbsp : 0 < baseScale ⟨w, h⟩ := by
    rw [baseScale_of_known ⟨w, h⟩ hw.ne' hh.ne']
    exact lt_max_of_lt_left (div_pos CROP_SIZE_pos hw)
  have hds : 0 < baseScale ⟨w, h⟩ * s :=
    mul_pos hbsp (lt_of_lt_of_le one_pos hs1)
  obtain ⟨hdw, hdh⟩ := display_ge_frame w h s hw hh hs1
  rw [clampOffset_of_known ⟨w, h⟩ o s hw.ne' hh.ne'] at hfix
  have hx : clamp1 (max 0 ((w * (baseScale ⟨w, h⟩ * s) - CROP_SIZE) / 2)) o.x =
      o.x := congrArg Offset.x hfix
  have hy : clamp1 (max 0 ((h * (baseScale ⟨w, h⟩ * s) - CROP_SIZE) / 2)) o.y =
      o.y := congrArg Offset.y hfix
  have hmX : max 0 ((w * (baseScale ⟨w, h⟩ * s) - CROP_SIZE) / 2) =
      (w * (baseScale ⟨w, h⟩ * s) - CROP_SIZE) / 2 :=
    max_eq_right (by linarith)
  have hmY : max 0 ((h * (baseScale ⟨w, h⟩ * s) - CROP_SIZE) / 2) =
      (h * (baseScale ⟨w, h⟩ * s) - CROP_SIZE) / 2 :=
    max_eq_right (by linarith)
  rw [hmX] at hx
  rw [hmY] at hy
  have hxb := clamp1_mem ((w * (baseScale ⟨w, h⟩ * s) - CROP_SIZE) / 2) o.x
    (by linarith)
  have hyb := clamp1_mem ((h * (baseScale ⟨w, h⟩ * s) - CROP_SIZE) / 2) o.y
    (by linarith)
  rw [hx] at hxb
  rw [hy] at hyb
  unfold exportSourceRect
  simp only
  have e1 : 0 - (CROP_SIZE / 2 - w * (baseScale ⟨w, h⟩ * s) / 2 + o.x) =
      w * (baseScale ⟨w, h⟩ * s) / 2 - CROP_SIZE / 2 - o.x := by ring
  have e2 : 0 - (CROP_SIZE / 2 - h * (baseScale ⟨w, h⟩ * s) / 2 + o.y) =
      h * (baseScale ⟨w, h⟩ * s) / 2 - CROP_SIZE / 2 - o.y := by ring
  rw [e1, e2]
  refine ⟨div_nonneg (by linarith [hxb.2]) hds.le,
    div_nonneg (by linarith [hyb.2]) hds.le, ?_, ?_⟩
  · rw [div_add_div_same, div_le_iff₀ hds]
    nlinarith [hxb.1]
  · rw [div_add_div_same, div_le_iff₀ hds]
    nlinarith [hyb.1]

theorem exportSourceRect_in_bounds_witness :
    (0 : ℚ) < 240 ∧ (0 : ℚ) < 480 ∧ (1 : ℚ) ≤ 1 ∧ (1 : ℚ) ≤ 3 ∧
      clampOffset ⟨240, 480⟩ ⟨0, 0⟩ 1 = ⟨0, 0⟩ ∧
      (0 ≤ (exportSourceRect ⟨240, 480⟩ 1 ⟨0, 0⟩).sourceX ∧
       0 ≤ (exportSourceRect ⟨240, 480⟩ 1 ⟨0, 0⟩).sourceY ∧
       (exportSourceRect ⟨240, 480⟩ 1 ⟨0, 0⟩).sourceX +
         (exportSourceRect ⟨240, 480⟩ 1 ⟨0, 0⟩).sourceSize ≤ 240 ∧
       (exportSourceRect ⟨240, 480⟩ 1 ⟨0, 0⟩).sourceY +
         (exportSourceRect ⟨240, 480⟩ 1 ⟨0, 0⟩).sourceSize ≤ 480) :=
  ⟨by norm_num, by norm_num, le_rfl, by norm_num,
    by norm_num [clampOffset, baseScale, CROP_SIZE],
    exportSourceRect_in_bounds 240 480 1 ⟨0, 0⟩ (by norm_num) (by norm_num)
      le_rfl (by norm_num) (by norm_num [clampOffset, baseScale, CROP_SIZE])⟩

/-- C7: the `onApply` sink is invoked exactly once when an encoded result
is produced, and zero times when the image element is missing, the drawing
context is unavailable, or encoding yields no result; the operation is
modelled as a total function, so no failure path raises an error. -/
theorem handleApply_sink_calls (α : Type) (img ctx : Bool) (enc : Option α) :
    (∀ b : α, enc = some b → img = true → ctx = true →
      handleApplySinkCalls α img ctx enc = [b]) ∧
    (ctx = false → handleApplySinkCalls α img ctx enc = []) ∧
    (enc = none → handleApplySinkCalls α img ctx enc = []) ∧
    (img = false → handleApplySinkCalls α img ctx enc = []) := by
  unfold handleApplySinkCalls
  rcases img <;> rcases ctx <;> rcases enc <;> simp

theorem handleApply_sink_calls_witness :
    handleApplySinkCalls ℕ true true (some 5) = [5] ∧
      handleApplySinkCalls ℕ true false (some 5) = [] :=
  ⟨(handleApply_sink_calls ℕ true true (some 5)).1 5 rfl rfl rfl,
    (handleApply_sink_calls ℕ true false (some 5)).2.1 rfl⟩

/-- C8: starting at offset `O`, a primary press at `P`, a move to `P + D`
and a release leave the shared offset at `clampOffset (O + D)` and discard
the drag snapshot without a further offset write. -/
theorem drag_sequence (s : DialogState) (press move : PointerEvent)
    (hp : ¬(press.pointerType = "mouse" ∧ press.button ≠ 0)) :
    (handlePointerUp (handlePointerMove (handlePointerDown s press)
        move)).offset =
      clampOffset s.imageSize
        { x := s.offset.x + (move.clientX - press.clientX),
          y := s.offset.y + (move.clientY - press.clientY) } s.scale ∧
    (handlePointerUp (handlePointerMove (handlePointerDown s press)
        move)).dragState = none := by
  unfold handlePointerDown
  rw [if_neg hp]
  unfold handlePointerMove handlePointerUp
  simp

theorem drag_sequence_witness :
    ¬((PointerEvent.mk 20 30 "touch" 0).pointerType = "mouse" ∧
        (PointerEvent.mk 20 30 "touch" 0).button ≠ 0) ∧
      (handlePointerUp (handlePointerMove
          (handlePointerDown ⟨none, false, ⟨240, 480⟩, 1, ⟨0, 0⟩⟩
            ⟨20, 30, "touch", 0⟩) ⟨70, 40, "touch", 0⟩)).offset =
        clampOffset ⟨240, 480⟩ ⟨0 + (70 - 20), 0 + (40 - 30)⟩ 1 :=
  ⟨by decide,
    (drag_sequence ⟨none, false, ⟨240, 480⟩, 1, ⟨0, 0⟩⟩ ⟨20, 30, "touch", 0⟩
      ⟨70, 40, "touch", 0⟩ (by decide)).1⟩

/-- A dialog state in the middle of a drag (a snapshot is present and the
dragging flag is set). -/
def residualDragState : DialogState :=
  { dragState := some { x := 3, y := 4, offsetX := 5, offsetY := 6 },
    isDragging := true, imageSize := ⟨240, 480⟩, scale := 1,
    offset := ⟨5, 6⟩ }

/-- C9 counterexample: the effect that runs when the open flag turns false
resets only the cached image dimensions; an in-progress drag snapshot
survives the close, contradicting the claim that it is discarded. -/
theorem openChangeEffect_residual_drag :
    (openChangeEffect residualDragState false).dragState =
        some { x := 3, y := 4, offsetX := 5, offsetY := 6 } ∧
      (openChangeEffect residualDragState false).dragState ≠ none := by
  refine ⟨rfl, ?_⟩
  intro h
  simp [openChangeEffect, residualDragState] at h

/-- C9 amended: on the open-flag transition to false the cached image
dimensions are reset to unknown; the drag snapshot and the dragging flag
are left untouched by this transition, but any subsequent fresh primary
press overwrites the snapshot with the then-current offset and press
position, so the new drag itself starts clean. -/
theorem openChangeEffect_spec (s : DialogState) (e : PointerEvent)
    (hp : ¬(e.pointerType = "mouse" ∧ e.button ≠ 0)) :
    (openChangeEffect s false).imageSize = ⟨0, 0⟩ ∧
    (openChangeEffect s false).dragState = s.dragState ∧
    (openChangeEffect s false).isDragging = s.isDragging ∧
    (handlePointerDown (openChangeEffect s false) e).dragState =
      some { x := e.clientX, y := e.clientY,
             offsetX := s.offset.x, offsetY := s.offset.y } := by
  unfold openChangeEffect handlePointerDown
  simp [hp]

theorem openChangeEffect_spec_witness :
    ¬((PointerEvent.mk 9 9 "pen" 0).pointerType = "mouse" ∧
        (PointerEvent.mk 9 9 "pen" 0).button ≠ 0) ∧
      ((openChangeEffect residualDragState false).imageSize = ⟨0, 0⟩ ∧
       (openChangeEffect residualDragState false).dragState =
         residualDragState.dragState ∧
       (openChangeEffect residualDragState false).isDragging =
         residualDragState.isDragging ∧
       (handlePointerDown (openChangeEffect residualDragState false)
           ⟨9, 9, "pen", 0⟩).dragState =
         some { x := 9, y := 9, offsetX := residualDragState.offset.x,
                offsetY := residualDragState.offset.y }) :=
  ⟨by decide,
    openChangeEffect_spec residualDragState ⟨9, 9, "pen", 0⟩ (by decide)⟩

end SafeChat
